import Mathlib

set_option maxRecDepth 8000

/-! Verification model of the capability-scoped execution engine of
`tools/log-analysis/execute_code.py` and of the skill store of
`tools/log-analysis/skills.py`.

Python data is embedded shallowly: Python `str` values become `String`,
Python `int` becomes `Int`, the exception class hierarchy becomes an
inductive type with its method-resolution-order chains, and the
filesystem-backed skill store becomes an association list keyed by skill
name.  What `exec`/the Python interpreter does when it runs a snippet text
cannot be embedded, so one execution attempt is abstracted as an
`ExecOutcome` value recording what the attempt printed and whether it
raised; `execute_code` is then modelled as the exact validation,
exception-classification, and output-truncation pipeline of the source
wrapped around that outcome.  The wall-clock `datetime.now()` used by the
skill store is abstracted as an explicit `Nat`-valued clock argument.

String operations of the Python source (`strip`, slicing, `split`,
`replace` of single characters, `int()`, `join`, `sorted`, `lower`) are
re-implemented here by structural recursion over `List Char` so that every
concrete run evaluates inside the kernel. -/

namespace SMCG

/-! ## String utilities (counterparts of the Python string operations) -/

/-- Python `str.strip()`: remove leading and trailing whitespace. -/
def pyStripStr (s : String) : String :=
  String.mk (((s.data.dropWhile Char.isWhitespace).reverse.dropWhile Char.isWhitespace).reverse)

/-- Python `s[:n]` for a nonnegative `n`, used through `pySliceTo`. -/
def strTake (s : String) (n : Nat) : String := String.mk (s.data.take n)

/-- Python `s[:k]` where `k` may be negative (`s[:-n]` drops the last `n`
characters), as in `output[:max_output]`. -/
def pySliceTo (s : String) (k : Int) : String :=
  if k < 0 then strTake s (s.data.length - k.natAbs) else strTake s k.toNat

/-- Python `sep.join(l)`. -/
def joinWith (sep : String) : List String → String
  | [] => ""
  | [x] => x
  | x :: y :: rest => x ++ sep ++ joinWith sep (y :: rest)

/-- Python `", ".join(l)`. -/
def joinComma (l : List String) : String := joinWith ", " l

/-- Accumulator for decimal digit parsing. -/
def digitsAux (acc : Nat) : List Char → Option Nat
  | [] => some acc
  | c :: rest => if c.isDigit then digitsAux (acc * 10 + (c.toNat - 48)) rest else none

/-- Python `int(s)` on plain decimal literals with an optional minus sign;
`none` models the `ValueError` raised on any other input. -/
def pyInt (s : String) : Option Int :=
  match s.data with
  | '-' :: c :: rest => (digitsAux 0 (c :: rest)).map (fun n => -(n : Int))
  | [] => none
  | l => (digitsAux 0 l).map (fun n => (n : Int))

/-- Lexicographic comparison of character lists by code point, the order
Python's `sorted` uses on these ASCII module names. -/
def charListLe : List Char → List Char → Bool
  | [], _ => true
  | _ :: _, [] => false
  | a :: as, b :: bs => if a = b then charListLe as bs else decide (a.toNat < b.toNat)

/-- One step of insertion sort on strings. -/
def insSorted (x : String) : List String → List String
  | [] => [x]
  | y :: ys => if charListLe x.data y.data then x :: y :: ys else y :: insSorted x ys

/-- Python `sorted(l)` for string lists (ascending insertion sort). -/
def sortStrings : List String → List String
  | [] => []
  | x :: xs => insSorted x (sortStrings xs)

/-- Python `s.split('.')`: the list of chunks of `l` between `'.'` separators. -/
def splitDots : List Char → List (List Char)
  | [] => [[]]
  | c :: rest =>
    match splitDots rest with
    | [] => [[]]
    | h :: t => if c = '.' then [] :: h :: t else (c :: h) :: t

/-- Python `name.replace('_', '').replace('-', '')`: for single-character
patterns two sequential replacements by the empty string are a filter. -/
def dropUnderscoreHyphen (s : String) : String :=
  String.mk (s.data.filter (fun c => c ≠ '_' ∧ c ≠ '-'))

/-- Python `s.isalnum()` (restricted to ASCII): nonempty and all characters
alphanumeric. -/
def pyIsAlnum (s : String) : Bool := s != "" && s.data.all Char.isAlphanum

/-- Python `s.lower()` (restricted to ASCII). -/
def pyToLower (s : String) : String := String.mk (s.data.map Char.toLower)

/-! ## Security configuration of `execute_code.py` -/

/-- The `ALLOWED_IMPORTS` set: the import allow-list, in source order. -/
def ALLOWED_IMPORTS : List String :=
  ["log_store", "privacy", "workspace",
   "json", "re", "math", "datetime", "collections", "itertools", "functools",
   "operator", "string", "textwrap", "unicodedata", "statistics", "random",
   "hashlib", "base64", "copy", "pprint", "enum", "dataclasses", "typing",
   "time", "csv"]

/-- The `RESTRICTED_BUILTINS` set: the builtin names kept in the execution namespace. -/
def RESTRICTED_BUILTINS : List String :=
  ["abs", "all", "any", "ascii", "bin", "bool", "bytearray", "bytes",
   "callable", "chr", "classmethod", "complex", "dict", "dir", "divmod",
   "enumerate", "filter", "float", "format", "frozenset", "getattr",
   "hasattr", "hash", "hex", "id", "int", "isinstance", "issubclass",
   "iter", "len", "list", "map", "max", "min", "next", "object", "oct",
   "ord", "pow", "print", "property", "range", "repr", "reversed", "round",
   "set", "setattr", "slice", "sorted", "staticmethod", "str", "sum",
   "super", "tuple", "type", "vars", "zip",
   "Exception", "BaseException", "ValueError", "TypeError", "KeyError",
   "IndexError", "AttributeError", "RuntimeError", "StopIteration",
   "None", "True", "False"]

/-- The `BLOCKED_BUILTINS` set: builtins the source documents as removed. -/
def BLOCKED_BUILTINS : List String :=
  ["open", "exec", "eval", "compile", "__import__", "input", "breakpoint",
   "globals", "locals", "memoryview"]

/-- The host interpreter's full builtin namespace, restricted to the names
modelled here: it contains every kept name, every documented blocked name,
and the exception types the source references. -/
def FULL_BUILTIN_NAMES : List String :=
  RESTRICTED_BUILTINS ++ BLOCKED_BUILTINS ++ ["TimeoutError", "OSError"]

/-! ## The gated import of `create_safe_import` -/

/-- Python `name.split('.')[0]`: the top-level component of a dotted module name. -/
def base_module (name : String) : String :=
  String.mk (name.data.takeWhile (fun c => c != '.'))

/-- The message of the `ImportError` raised by `safe_import` for a module
outside the allow-list. -/
def notAllowedMsg (name : String) : String :=
  "Import of '" ++ name ++ "' is not allowed. Allowed modules: " ++
    joinComma (sortStrings ALLOWED_IMPORTS)

/-- The gate built by `create_safe_import(ALLOWED_IMPORTS)`: reject when the
top-level name is outside the allow-list, otherwise delegate to the real
`__import__`. -/
def safe_import (name : String) : Except String Unit :=
  if ALLOWED_IMPORTS.contains (base_module name) then .ok ()
  else .error (notAllowedMsg name)

/-- The host's unrestricted `__import__`, which performs no gating. -/
def host_import (_ : String) : Except String Unit := .ok ()

/-- The observable shape of an execution-globals mapping: which builtin
names it resolves, which import function `__import__` is bound to, and
which pre-imported tool capabilities it holds. -/
structure ExecGlobals where
  builtinNames : List String
  importFn : String → Except String Unit
  toolNames : List String

/-- The model of `create_execution_globals`: restricted builtins (every name of
`RESTRICTED_BUILTINS` exists on the host's `builtins` module, so the
`hasattr` filter keeps them all) plus `__import__` bound to `safe_import`,
and the pre-imported sandbox tools. -/
def create_execution_globals : ExecGlobals :=
  { builtinNames := RESTRICTED_BUILTINS ++ ["__import__"],
    importFn := safe_import,
    toolNames := ["log_store", "privacy", "workspace"] }

/-- The globals built inside `run_skill` (`skills.py`): the module-level
`__builtins__` injected wholesale — the host's full builtins with the
ungated host `__import__` — plus the pre-imported sandbox tools. -/
def run_skill_exec_globals : ExecGlobals :=
  { builtinNames := FULL_BUILTIN_NAMES,
    importFn := host_import,
    toolNames := ["log_store", "privacy", "workspace"] }

/-! ## Python exception values -/

/-- The Python exception classes relevant to the source (`synError` models
`SyntaxError`). -/
inductive PyExcTy where
  | baseException
  | exception
  | lookupError
  | valueError
  | typeError
  | keyError
  | indexError
  | attributeError
  | runtimeError
  | stopIteration
  | osError
  | timeoutError
  | importError
  | synError
deriving DecidableEq

/-- The method resolution order of each class (its superclass chain), as in
CPython: `TimeoutError < OSError < Exception < BaseException`, lookup
errors under `LookupError`, everything else directly under `Exception`. -/
def mro : PyExcTy → List PyExcTy
  | .baseException => [.baseException]
  | .exception => [.exception, .baseException]
  | .lookupError => [.lookupError, .exception, .baseException]
  | .valueError => [.valueError, .exception, .baseException]
  | .typeError => [.typeError, .exception, .baseException]
  | .keyError => [.keyError, .lookupError, .exception, .baseException]
  | .indexError => [.indexError, .lookupError, .exception, .baseException]
  | .attributeError => [.attributeError, .exception, .baseException]
  | .runtimeError => [.runtimeError, .exception, .baseException]
  | .stopIteration => [.stopIteration, .exception, .baseException]
  | .osError => [.osError, .exception, .baseException]
  | .timeoutError => [.timeoutError, .osError, .exception, .baseException]
  | .importError => [.importError, .exception, .baseException]
  | .synError => [.synError, .exception, .baseException]

/-- Python `isinstance(e, cls)` for exception values: the dispatch used by
an `except cls` clause. -/
def isInstanceOf (t cls : PyExcTy) : Bool := (mro t).contains cls

/-- Python `type(e).__name__`. -/
def excTyName : PyExcTy → String
  | .baseException => "BaseException"
  | .exception => "Exception"
  | .lookupError => "LookupError"
  | .valueError => "ValueError"
  | .typeError => "TypeError"
  | .keyError => "KeyError"
  | .indexError => "IndexError"
  | .attributeError => "AttributeError"
  | .runtimeError => "RuntimeError"
  | .stopIteration => "StopIteration"
  | .osError => "OSError"
  | .timeoutError => "TimeoutError"
  | .importError => "ImportError"
  | .synError => "SyntaxError"

/-- An exception value: its class, its `str(e)` message, and (for
`SyntaxError`) its line number. -/
structure PyExcVal where
  ty : PyExcTy
  msg : String
  lineno : Int := 0
deriving DecidableEq

/-! ## Python values passed as the `code` argument -/

/-- The Python values a caller can pass as `code`: a string, or a non-string
value (`int`, `list`, `None`) exercising the validation path. -/
inductive PyValue where
  | str (s : String)
  | int (n : Int)
  | list (xs : List Int)
  | pyNone
deriving DecidableEq

/-- Python truthiness (`not code` negated). -/
def truthy : PyValue → Bool
  | .str s => s != ""
  | .int n => n != 0
  | .list xs => !xs.isEmpty
  | .pyNone => false

/-- Python `code.strip()`: succeeds on strings, raises `AttributeError` on
the other value kinds. -/
def pyStrip : PyValue → Except PyExcVal PyValue
  | .str s => .ok (.str (pyStripStr s))
  | .int _ => .error ⟨.attributeError, "'int' object has no attribute 'strip'", 0⟩
  | .list _ => .error ⟨.attributeError, "'list' object has no attribute 'strip'", 0⟩
  | .pyNone => .error ⟨.attributeError, "'NoneType' object has no attribute 'strip'", 0⟩

/-- Python `isinstance(code, str)`. -/
def PyValue.isStr : PyValue → Bool
  | .str _ => true
  | _ => false

/-! ## One execution attempt -/

/-- What one `exec(code, exec_globals, exec_locals)` attempt under the alarm
did: completed normally having printed `printed`, or raised exception `e`
after printing `printed`.  The `TimeoutError` raised by the alarm's signal
handler is the `raised` case with class `timeoutError` and the handler's
message. -/
inductive ExecOutcome where
  | ok (printed : String)
  | raised (e : PyExcVal) (printed : String)
deriving DecidableEq

/-- The text sitting in the captured-stdout buffer when the attempt ends. -/
def capturedOf : ExecOutcome → String
  | .ok printed => printed
  | .raised _ printed => printed

/-- The message of the `TimeoutError` raised by `timeout_handler`'s signal
handler. -/
def timeout_message (seconds : Int) : String :=
  "Code execution timed out after " ++ toString seconds ++ " seconds"

/-- The marker appended to truncated output; note it interpolates
`max_output`. -/
def trunc_marker (maxOutput : Int) : String :=
  "\n... [OUTPUT TRUNCATED - exceeded " ++ toString maxOutput ++ " chars]"

/-- The result envelope of `execute_code`. -/
structure ExecResult where
  success : Bool
  output : String
  error : String
  truncated : Bool
deriving DecidableEq

/-- Which branch of `execute_code` produced the envelope: the early
validation returns, the `try` body completing, or one of the `except`
clauses. -/
inductive OutcomeKind where
  | success
  | validationFailure
  | timeout
  | importRejected
  | parseFailure
  | runtimeFailure
deriving DecidableEq

/-- The `except` chain of `execute_code`, dispatching on the raised value's
class exactly in source order (`TimeoutError`, `ImportError`, `SyntaxError`,
`Exception`); `none` means no clause matches and the exception propagates
out of `execute_code` (only the `finally` block runs). -/
def classify_exc (e : PyExcVal) : Option (String × OutcomeKind) :=
  if isInstanceOf e.ty .timeoutError then some (e.msg, .timeout)
  else if isInstanceOf e.ty .importError then some ("Import error: " ++ e.msg, .importRejected)
  else if isInstanceOf e.ty .synError then
    some ("Syntax error at line " ++ toString e.lineno ++ ": " ++ e.msg, .parseFailure)
  else if isInstanceOf e.ty .exception then
    some (excTyName e.ty ++ ": " ++ e.msg, .runtimeFailure)
  else none

/-- The `try`/`except` part of `execute_code`: the success flag, the error
string, and the branch that ran; `Except.error` is an exception no clause
caught, escaping the function. -/
def attempt_result (o : ExecOutcome) : Except PyExcVal (Bool × String × OutcomeKind) :=
  match o with
  | .ok _ => .ok (true, "", .success)
  | .raised e _ =>
    match classify_exc e with
    | some (err, k) => .ok (false, err, k)
    | none => .error e

/-- The `finally` block: read the captured buffer and truncate it when it
exceeds `max_output`. -/
def finalize (succ : Bool) (err output : String) (maxOutput : Int) : ExecResult :=
  if maxOutput < (output.length : Int) then
    { success := succ, output := pySliceTo output maxOutput ++ trunc_marker maxOutput,
      error := err, truncated := true }
  else
    { success := succ, output := output, error := err, truncated := false }

/-- The model of `execute_code(code, timeout, max_output)` given that the `exec` attempt
behaves as `o`.  Besides the envelope, the result carries a flag recording
whether `exec` was invoked at all and the branch that produced the
envelope; `Except.error` is an exception escaping `execute_code` as an
unhandled fault of the host. -/
def execute_code_full (code : PyValue) (timeout maxOutput : Int) (o : ExecOutcome) :
    Except PyExcVal (ExecResult × Bool × OutcomeKind) :=
  if truthy code = false then
    .ok ({ success := false, output := "", error := "No code provided", truncated := false },
      false, .validationFailure)
  else
    match pyStrip code with
    | .error e => .error e
    | .ok stripped =>
      if truthy stripped = false then
        .ok ({ success := false, output := "", error := "No code provided", truncated := false },
          false, .validationFailure)
      else if code.isStr = false then
        .ok ({ success := false, output := "", error := "Code must be a string", truncated := false },
          false, .validationFailure)
      else
        match attempt_result o with
        | .error e => .error e
        | .ok (succ, err, k) => .ok (finalize succ err (capturedOf o) maxOutput, true, k)

/-- The envelope alone, as the caller of `execute_code` sees it.  The unused
`timeout` argument reaches the model only through the alarm's exception
message inside `o`. -/
def execute_code (code : PyValue) (timeout maxOutput : Int) (o : ExecOutcome) :
    Except PyExcVal ExecResult :=
  (execute_code_full code timeout maxOutput o).map (fun x => x.1)

instance exceptDecEq {ε α : Type} [DecidableEq ε] [DecidableEq α] : DecidableEq (Except ε α) :=
  fun x y =>
  match x, y with
  | .ok a, .ok b =>
    if h : a = b then isTrue (by rw [h]) else isFalse (fun hc => h (Except.ok.inj hc))
  | .error a, .error b =>
    if h : a = b then isTrue (by rw [h]) else isFalse (fun hc => h (Except.error.inj hc))
  | .ok _, .error _ => isFalse (fun hc => Except.noConfusion hc)
  | .error _, .ok _ => isFalse (fun hc => Except.noConfusion hc)

/-! ## Python statement trees (`skills.py` uses `ast.parse`/`ast.walk`)

Only the statement shapes the skill-store claims depend on are modelled:
`def` statements and `class` statements (the two binding, body-carrying
forms `ast.walk` descends into for the claims at hand) and an inert
`other` statement (pass/return/assignment/expression).  Bodies are a
mutually inductive list type so that all recursions stay structural and
kernel-reducible. -/

mutual
inductive Stmt where
  | funcDef (name : String) (body : StmtBody)
  | classDef (name : String) (body : StmtBody)
  | other
deriving DecidableEq
inductive StmtBody where
  | nil
  | cons (s : Stmt) (rest : StmtBody)
deriving DecidableEq
end

/-- Concatenation of statement lists. -/
def bodyAppend : StmtBody → StmtBody → StmtBody
  | .nil, b => b
  | .cons s rest, b => .cons s (bodyAppend rest b)

/-- The child statements `ast.walk` enqueues for one node. -/
def stmtChildren : Stmt → StmtBody
  | .funcDef _ b => b
  | .classDef _ b => b
  | .other => .nil

/-- The `FunctionDef` names appearing directly in one list of statements
(one breadth-first level of `ast.walk`), in order. -/
def levelNames : StmtBody → List String
  | .nil => []
  | .cons (.funcDef n _) rest => n :: levelNames rest
  | .cons _ rest => levelNames rest

/-- All children of one breadth-first level, in order. -/
def levelChildren : StmtBody → StmtBody
  | .nil => .nil
  | .cons s rest => bodyAppend (stmtChildren s) (levelChildren rest)

mutual
/-- Number of statement nodes in a statement (used as recursion fuel). -/
def stmtWeight : Stmt → Nat
  | .funcDef _ b => 1 + bodyWeight b
  | .classDef _ b => 1 + bodyWeight b
  | .other => 1
/-- Number of statement nodes in a statement list. -/
def bodyWeight : StmtBody → Nat
  | .nil => 0
  | .cons s rest => stmtWeight s + bodyWeight rest
end

/-- Breadth-first collection of `FunctionDef` names, level by level.  The
fuel argument bounds the number of levels; each step strictly shrinks the
total node count, so `bodyWeight + 1` levels always suffice. -/
def collectFunctionsAux : Nat → StmtBody → List String
  | _, .nil => []
  | 0, .cons _ _ => []
  | fuel + 1, .cons s rest =>
    levelNames (.cons s rest) ++ collectFunctionsAux fuel (levelChildren (.cons s rest))

/-- The `functions` list `_validate_code` extracts: the name of every
`ast.FunctionDef` node found by `ast.walk` (a breadth-first walk of the
whole tree, nested definitions included). -/
def collectFunctions (tree : StmtBody) : List String :=
  collectFunctionsAux (bodyWeight tree + 1) tree

/-- The names a top-level `exec` of the code binds in its globals: the
`def` and `class` statements of the top level. -/
def topLevelBoundNames : StmtBody → List String
  | .nil => []
  | .cons (.funcDef n _) rest => n :: topLevelBoundNames rest
  | .cons (.classDef n _) rest => n :: topLevelBoundNames rest
  | .cons .other rest => topLevelBoundNames rest

/-- Modelled from the spec's words, for comparison with `collectFunctions`:
"the names of the top-level callables declared in the code" — the callables
(`def` and `class` statements) declared at the top level only. -/
def specTopLevelCallableNames : StmtBody → List String
  | .nil => []
  | .cons (.funcDef n _) rest => n :: specTopLevelCallableNames rest
  | .cons (.classDef n _) rest => n :: specTopLevelCallableNames rest
  | .cons .other rest => specTopLevelCallableNames rest

/-! ## Skill-store configuration and validation -/

/-- Maximum skill code size in bytes (50 KB). -/
def MAX_SKILL_SIZE : Nat := 50 * 1024

/-- Maximum number of skills. -/
def MAX_SKILLS : Nat := 100

/-- Reserved skill names. -/
def RESERVED_NAMES : List String := ["__init__", "__main__", "setup", "test", "config"]

/-- What `ast.parse` did on a code text: a statement tree, or a
`SyntaxError` with line number and message. -/
inductive ParseResult where
  | ok (tree : StmtBody)
  | synErr (lineno : Int) (msg : String)
deriving DecidableEq

/-- A Python source text together with its parse: the shallow embedding of
the `code` string handed to the skill store. -/
structure PyCode where
  text : String
  parsed : ParseResult
deriving DecidableEq

/-- The record `_validate_code` returns. -/
structure CodeCheck where
  valid : Bool
  functions : List String
  error : Option String
deriving DecidableEq

/-- The model of `_validate_code(code)`: emptiness and size checks, then parse, then the
`ast.walk`-based function extraction. -/
def validate_code (code : PyCode) : CodeCheck :=
  if pyStripStr code.text = "" then
    { valid := false, functions := [], error := some "Code cannot be empty" }
  else if MAX_SKILL_SIZE < code.text.length then
    { valid := false, functions := [],
      error := some ("Code too large (" ++ toString code.text.length ++ " bytes). Maximum: " ++
        toString MAX_SKILL_SIZE) }
  else
    match code.parsed with
    | .ok tree => { valid := true, functions := collectFunctions tree, error := none }
    | .synErr lineno msg =>
      { valid := false, functions := [],
        error := some ("Syntax error at line " ++ toString lineno ++ ": " ++ msg) }

/-- The model of `_validate_skill_name(name)`: emptiness, charset, length and
reserved-name checks, in source order; `Except.error` is the message of the
`ValueError` raised. -/
def validate_skill_name (name : String) : Except String Unit :=
  if name = "" then .error "Skill name cannot be empty"
  else if pyIsAlnum (dropUnderscoreHyphen name) = false then
    .error ("Invalid skill name '" ++ name ++
      "'. Use only letters, numbers, underscores, and hyphens.")
  else if 50 < name.length then .error "Skill name must be 50 characters or less"
  else if RESERVED_NAMES.contains (pyToLower name) then
    .error ("Skill name '" ++ name ++ "' is reserved")
  else .ok ()

/-! ## The persisted skill record and the store -/

/-- The fields `SKILL.md` is rendered from.  The file on disk is the
`SKILL_MD_TEMPLATE` instantiated with exactly these values; keeping them
structured lets theorems observe the example text the template received. -/
structure SkillMdDoc where
  title : String
  description : String
  paramsText : String
  paramsExample : String
  returnsText : String
  exampleText : String
  date : String
  version : String
deriving DecidableEq

/-- Everything `save_skill` persists under one skill directory:
`implementation.py` (the code), `metadata.json` (name, description,
parameters, returns, functions, version, created, updated), and
`SKILL.md`. -/
structure SkillRecord where
  name : String
  description : String
  parameters : List (String × String)
  returns : String
  functions : List String
  version : String
  created : Nat
  updated : Nat
  code : PyCode
  skillMd : SkillMdDoc
deriving DecidableEq

/-- The skills directory: an association of skill names to records. -/
abbrev Store := List (String × SkillRecord)

/-- Load the record stored under `name`, if any. -/
def storeLookup (st : Store) (name : String) : Option SkillRecord :=
  (st.find? (fun p => p.1 == name)).map Prod.snd

/-- Write (or overwrite) the record stored under `name`. -/
def storeSave (st : Store) (name : String) (r : SkillRecord) : Store :=
  (name, r) :: st.eraseP (fun p => p.1 == name)

/-- The model of `list_skills()`: all skill names, sorted. -/
def list_skills (st : Store) : List String := sortStrings (st.map Prod.fst)

/-- The skills directory path under the default workspace root. -/
def SKILLS_DIR : String := "/workspace/skills"

/-- The `## Parameters` body of `SKILL.md`. -/
def renderParamsText (parameters : List (String × String)) : String :=
  if parameters.isEmpty then "None"
  else joinWith "\n" (parameters.map (fun kv => "- `" ++ kv.1 ++ "`: " ++ kv.2))

/-- The argument sketch spliced into the usage line of `SKILL.md`. -/
def renderParamsExample (parameters : List (String × String)) : String :=
  if parameters.isEmpty then ""
  else ", " ++ joinComma (parameters.map (fun kv => kv.1 ++ "=\"...\""))

/-- The fallback example used when none is supplied (`example or ...`). -/
def defaultExample (name : String) : String :=
  "result = skills.run_skill(\"" ++ name ++ "\")"

/-- The example text `SKILL.md` receives: the supplied one, or the fallback
when it is empty (Python `example or ...`). -/
def chooseExample (ex name : String) : String :=
  if ex = "" then defaultExample name else ex

/-- The value `save_skill` returns on success. -/
structure SaveResult where
  success : Bool
  name : String
  path : String
  functions : List String
  message : String
deriving DecidableEq

/-- The record `save_skill` persists: implementation text, the metadata
fields (`created` and `updated` both set to the current instant `now`), and
the rendered `SKILL.md`. -/
def builtSkillRecord (now : Nat) (name : String) (code : PyCode) (desc : String)
    (params : List (String × String)) (rets ex ver : String) : SkillRecord :=
  { name := name, description := desc, parameters := params, returns := rets,
    functions := (validate_code code).functions, version := ver,
    created := now, updated := now, code := code,
    skillMd :=
      { title := name, description := desc,
        paramsText := renderParamsText params, paramsExample := renderParamsExample params,
        returnsText := rets, exampleText := chooseExample ex name,
        date := toString now, version := ver } }

/-- The value `save_skill` returns on success. -/
def builtSaveResult (name : String) (functions : List String) : SaveResult :=
  { success := true, name := name, path := SKILLS_DIR ++ "/" ++ name,
    functions := functions,
    message := "Skill '" ++ name ++ "' saved with functions: " ++ joinComma functions }

/-- The model of `save_skill(name, code, description, parameters, returns, example,
version)` at clock instant `now`: name validation, the skill-count cap
(bypassed when overwriting), code validation, the at-least-one-function
check, then persisting the record. -/
def save_skill (st : Store) (now : Nat) (name : String) (code : PyCode)
    (description : String) (parameters : List (String × String))
    (returns : String) (exampleArg : String) (version : String) :
    Except String (Store × SaveResult) :=
  match validate_skill_name name with
  | .error e => .error e
  | .ok () =>
    if MAX_SKILLS ≤ (list_skills st).length ∧ (list_skills st).contains name = false then
      .error ("Maximum number of skills (" ++ toString MAX_SKILLS ++ ") reached")
    else if (validate_code code).valid = false then
      .error ("Invalid code: " ++ (validate_code code).error.getD "")
    else if (validate_code code).functions.isEmpty then
      .error "Code must define at least one function"
    else
      .ok (storeSave st name (builtSkillRecord now name code description parameters
            returns exampleArg version),
        builtSaveResult name (validate_code code).functions)

/-- The version bump of `update_skill`: split on dots, parse the trailing
component as an integer, add one, re-join; `Except.error` is the
`ValueError` `int()` raises on a non-numeric trailing component. -/
def bump_version (v : String) : Except String String :=
  let parts := (splitDots v.data).map String.mk
  match pyInt (parts.getLastD "") with
  | some k => .ok (joinWith "." (parts.dropLast ++ [toString (k + 1)]))
  | none =>
    .error ("invalid literal for int() with base 10: '" ++ parts.getLastD "" ++ "'")

/-- The model of `update_skill(name, code?, description?, parameters?, returns?,
example?)`: load the existing record, merge the supplied fields over it
(note the example merges against the empty string, not the prior example),
bump the version, and re-save. -/
def update_skill (st : Store) (now : Nat) (name : String)
    (code : Option PyCode) (description : Option String)
    (parameters : Option (List (String × String)))
    (returns : Option String) (exampleArg : Option String) :
    Except String (Store × SaveResult) :=
  match storeLookup st name with
  | none => .error ("Skill '" ++ name ++ "' not found")
  | some existing =>
    let new_code := code.getD existing.code
    let new_description := description.getD existing.description
    let new_parameters := parameters.getD existing.parameters
    let new_returns := returns.getD existing.returns
    let new_example := exampleArg.getD ""
    match bump_version existing.version with
    | .error e => .error e
    | .ok new_version =>
      save_skill st now name new_code new_description new_parameters new_returns
        new_example new_version

/-! ## Running a skill -/

/-- The names bound in `exec_globals` after `exec(code, exec_globals)` runs
the skill code: its top-level `def` and `class` statements. -/
def skillBindings (sk : SkillRecord) : List String :=
  match sk.code.parsed with
  | .ok tree => topLevelBoundNames tree
  | .synErr _ _ => []

/-- The tail of `run_skill` once a target name is selected: execute the
code, look the target up in the globals, and call it.  The returned string
is the name of the callable invoked; the flag records that `exec` ran. -/
def finishRun (sk : SkillRecord) (target : String) :
    Except String String × Bool :=
  if (skillBindings sk).contains target then (.ok target, true)
  else (.error ("Function '" ++ target ++ "' not found after executing skill"), true)

/-- The model of `run_skill(name, function, **kwargs)`: load the skill, reject when its
metadata lists no functions, select the requested callable (the first
listed one when `function` is omitted, an error naming the available ones
when it is not listed), then execute the code and call the selection.  The
`Bool` records whether `exec(code, ...)` was invoked. -/
def run_skill (st : Store) (name : String) (function : Option String) :
    Except String String × Bool :=
  match storeLookup st name with
  | none => (.error ("Skill '" ++ name ++ "' not found"), false)
  | some sk =>
    if sk.functions.isEmpty then
      (.error ("Skill '" ++ name ++ "' has no functions defined"), false)
    else
      match function with
      | some f =>
        if sk.functions.contains f = false then
          (.error ("Function '" ++ f ++ "' not found in skill '" ++ name ++
            "'. Available: " ++ joinComma sk.functions), false)
        else finishRun sk f
      | none => finishRun sk (sk.functions.headD "")

/-! ## Derived configuration and concrete fixtures -/

/-- The exception classes a snippet can name: the exception builtins kept in
`RESTRICTED_BUILTINS`.  Any exception a snippet raises (or derives) is an
instance of one of these. -/
def allowedSnippetExcTys : List PyExcTy :=
  [.exception, .baseException, .valueError, .typeError, .keyError,
   .indexError, .attributeError, .runtimeError, .stopIteration]

/-- The error string `execute_code` reports for `import socket`. -/
def socketRejectErr : String :=
  "Import error: Import of 'socket' is not allowed. Allowed modules: base64, collections, copy, csv, dataclasses, datetime, enum, functools, hashlib, itertools, json, log_store, math, operator, pprint, privacy, random, re, statistics, string, textwrap, time, typing, unicodedata, workspace"

/-- A skill code declaring callables `f` then `g` at the top level. -/
def fgCode : PyCode :=
  { text := "def f():\n    pass\n\ndef g():\n    pass",
    parsed := .ok (.cons (.funcDef "f" (.cons .other .nil))
      (.cons (.funcDef "g" (.cons .other .nil)) .nil)) }

/-- The record `save_skill` builds for `fgCode` at clock instant 0. -/
def fgRecord : SkillRecord :=
  { name := "fg_skill", description := "two functions", parameters := [],
    returns := "r", functions := ["f", "g"], version := "1.0.0",
    created := 0, updated := 0, code := fgCode,
    skillMd :=
      { title := "fg_skill", description := "two functions", paramsText := "None",
        paramsExample := "", returnsText := "r",
        exampleText := "result = skills.run_skill(\"fg_skill\")",
        date := "0", version := "1.0.0" } }

/-- A store holding exactly the `fg_skill` skill. -/
def fgStore : Store := [("fg_skill", fgRecord)]

/-- A one-function skill code used by the update fixtures. -/
def oneFunCode : PyCode :=
  { text := "def f():\n    pass",
    parsed := .ok (.cons (.funcDef "f" (.cons .other .nil)) .nil) }

/-- The store after `save_skill([], 1, "sk", oneFunCode, "desc", [], "ret",
"MYEXAMPLE", "1.0.0")`. -/
def updStore1 : Store :=
  [("sk",
    { name := "sk", description := "desc", parameters := [], returns := "ret",
      functions := ["f"], version := "1.0.0", created := 1, updated := 1,
      code := oneFunCode,
      skillMd :=
        { title := "sk", description := "desc", paramsText := "None",
          paramsExample := "", returnsText := "ret", exampleText := "MYEXAMPLE",
          date := "1", version := "1.0.0" } })]

/-- The value `save_skill` returns when building `updStore1` (and again
when the update re-saves). -/
def updRes1 : SaveResult :=
  { success := true, name := "sk", path := "/workspace/skills/sk",
    functions := ["f"], message := "Skill 'sk' saved with functions: f" }

/-- The store after `update_skill(updStore1, 2, "sk", description="newdesc")`. -/
def updStore2 : Store :=
  [("sk",
    { name := "sk", description := "newdesc", parameters := [], returns := "ret",
      functions := ["f"], version := "1.0.1", created := 2, updated := 2,
      code := oneFunCode,
      skillMd :=
        { title := "sk", description := "newdesc", paramsText := "None",
          paramsExample := "", returnsText := "ret",
          exampleText := "result = skills.run_skill(\"sk\")",
          date := "2", version := "1.0.1" } })]

/-! ## Helper lemmas -/

theorem strEqOfData : ∀ {a b : String}, a.data = b.data → a = b
  | ⟨_⟩, ⟨_⟩, rfl => rfl

theorem data_append (a b : String) : (a ++ b).data = a.data ++ b.data := rfl

theorem strAppendAssoc (a b c : String) : a ++ b ++ c = a ++ (b ++ c) :=
  strEqOfData (List.append_assoc _ _ _)

/-- A middle factor of a string concatenation is a substring. -/
theorem substr_mid (pre mid suf : String) : mid.data <:+: (pre ++ mid ++ suf).data :=
  ⟨pre.data, suf.data, rfl⟩

/-- A final factor of a string concatenation is a substring. -/
theorem substr_suffix (pre mid : String) : mid.data <:+: (pre ++ mid).data :=
  ⟨pre.data, [], by simp [data_append]⟩

/-- For a nonempty snippet string, `execute_code_full` reduces to the
attempt classification followed by the output finalisation. -/
theorem execute_code_full_str (codeText : String) (t mo : Int) (o : ExecOutcome)
    (hne : pyStripStr codeText ≠ "") :
    execute_code_full (.str codeText) t mo o =
      match attempt_result o with
      | .error e => .error e
      | .ok (succ, err, k) => .ok (finalize succ err (capturedOf o) mo, true, k) := by
  have hne0 : codeText ≠ "" := by
    intro h
    exact hne (by rw [h]; rfl)
  unfold execute_code_full
  simp [truthy, pyStrip, PyValue.isStr, hne0, hne]

/-- The envelope-level counterpart of `execute_code_full_str`. -/
theorem execute_code_str (codeText : String) (t mo : Int) (o : ExecOutcome)
    (hne : pyStripStr codeText ≠ "") :
    execute_code (.str codeText) t mo o =
      match attempt_result o with
      | .error e => .error e
      | .ok (succ, err, k) => .ok (finalize succ err (capturedOf o) mo) := by
  unfold execute_code
  rw [execute_code_full_str _ _ _ _ hne]
  cases attempt_result o with
  | error e => rfl
  | ok trip => obtain ⟨_, _, _⟩ := trip; rfl

/-- The function `finalize` writes the error string and the success flag through
unchanged. -/
theorem finalize_error_success (succ : Bool) (err out : String) (mo : Int) :
    (finalize succ err out mo).error = err ∧ (finalize succ err out mo).success = succ := by
  unfold finalize
  split <;> exact ⟨rfl, rfl⟩

/-- The truncation behaviour of `finalize` for a positive cap. -/
theorem finalize_truncation (succ : Bool) (err out : String) (mo : Int) (hmo : 0 < mo) :
    (mo < (out.length : Int) →
      (finalize succ err out mo).output = strTake out mo.toNat ++ trunc_marker mo ∧
      (strTake out mo.toNat).length = mo.toNat ∧
      (finalize succ err out mo).truncated = true) ∧
    ((out.length : Int) ≤ mo →
      (finalize succ err out mo).output = out ∧ (finalize succ err out mo).truncated = false) := by
  constructor
  · intro hlt
    unfold finalize
    rw [if_pos hlt]
    have hlen : (out.length : Int) = (out.data.length : Int) := rfl
    refine ⟨?_, ?_, rfl⟩
    · show pySliceTo out mo ++ trunc_marker mo = _
      unfold pySliceTo
      rw [if_neg (by omega)]
    · show (String.mk (out.data.take mo.toNat)).length = mo.toNat
      simp only [String.length, List.length_take]
      omega
  · intro hle
    unfold finalize
    rw [if_neg (by omega)]
    exact ⟨rfl, rfl⟩

theorem lookup_storeSave (st : Store) (name : String) (r : SkillRecord) :
    storeLookup (storeSave st name r) name = some r := by
  unfold storeLookup storeSave
  rw [List.find?_cons_of_pos _ (by simp)]
  rfl

/-- Inversion of a successful `save_skill`: the resulting store is the old
one with the freshly built record written under the name. -/
theorem save_skill_ok_record (st : Store) (now : Nat) (name : String) (code : PyCode)
    (desc : String) (params : List (String × String)) (rets ex ver : String)
    (st2 : Store) (res : SaveResult)
    (h : save_skill st now name code desc params rets ex ver = .ok (st2, res)) :
    st2 = storeSave st name (builtSkillRecord now name code desc params rets ex ver) := by
  unfold save_skill at h
  split at h
  · exact Except.noConfusion h
  · split at h
    · exact Except.noConfusion h
    · split at h
      · exact Except.noConfusion h
      · split at h
        · exact Except.noConfusion h
        · exact (congrArg Prod.fst (Except.ok.inj h)).symm

/-! ## Claims -/

/-- C1: the spec says `run` executes the skill's source in the same
restricted namespace (restricted builtins, gated import) that
`create_execution_globals` builds for `execute_code`, and `run_skill`'s own
docstring says the same; but the globals `run_skill` actually builds
contain the host's full `__builtins__` (including `open`) and the ungated
host import, so the claim describes the intent and the code is a slip. -/
theorem run_skill_globals_not_restricted :
    run_skill_exec_globals.builtinNames.contains "open" = true ∧
    create_execution_globals.builtinNames.contains "open" = false ∧
    run_skill_exec_globals.importFn "socket" = .ok () ∧
    create_execution_globals.importFn "socket" = .error (notAllowedMsg "socket") ∧
    ("not allowed").data <:+: (notAllowedMsg "socket").data := by
  exact ⟨by decide, by decide, rfl, by decide, by decide⟩

/-- C2: `execute_code` evaluates `code.strip()` before its
`isinstance(code, str)` guard, so a truthy non-string `code` (here the
integer 123) raises an `AttributeError` that escapes `execute_code` as an
unhandled fault instead of the documented envelope; a snippet raising
`BaseException` (reachable, since `BaseException` is a kept builtin) also
escapes, because no `except` clause of the chain catches it. -/
theorem execute_code_unhandled_fault :
    execute_code_full (.int 123) 5 100 (.ok "") =
      .error { ty := .attributeError, msg := "'int' object has no attribute 'strip'", lineno := 0 } ∧
    execute_code_full (.str "raise BaseException('boom')") 5 100
      (.raised { ty := .baseException, msg := "boom", lineno := 0 } "") =
      .error { ty := .baseException, msg := "boom", lineno := 0 } := by
  exact ⟨by decide, by decide⟩

/-- C3 counterexample: with `timeout = 0` (and likewise `max_output = -1`)
and a nonempty snippet, `execute_code` performs no validation of the bounds
and the attempt runs (the second component `true` records that `exec` was
invoked), contradicting the claim that such requests fail validation before
any execution. -/
theorem execute_code_no_bounds_validation :
    (0 : Int) ≤ 0 ∧
    execute_code_full (.str "print(1+1)") 0 100 (.ok "2\n") =
      .ok ({ success := true, output := "2\n", error := "", truncated := false },
        true, .success) ∧
    (-1 : Int) ≤ 0 ∧
    execute_code_full (.str "print(1+1)") 5 (-1) (.ok "2\n") =
      .ok ({ success := true, output := "2" ++ trunc_marker (-1), error := "", truncated := true },
        true, .success) := by
  exact ⟨by decide, by decide, by decide, by decide⟩

/-- C3 amended: only an empty (or whitespace-only) snippet fails validation
before execution; `timeout` and `max_output` are never validated, and for
any nonempty snippet the attempt is executed (flag `true`) whatever their
values. -/
theorem execute_code_validation_spec (codeText : String) (t mo : Int) (o : ExecOutcome) :
    (pyStripStr codeText = "" →
      execute_code_full (.str codeText) t mo o =
        .ok ({ success := false, output := "", error := "No code provided", truncated := false },
          false, .validationFailure)) ∧
    (pyStripStr codeText ≠ "" →
      execute_code_full (.str codeText) t mo o =
        match attempt_result o with
        | .error e => .error e
        | .ok (succ, err, k) => .ok (finalize succ err (capturedOf o) mo, true, k)) := by
  constructor
  · intro h
    by_cases h0 : codeText = ""
    · subst h0; rfl
    · unfold execute_code_full
      simp [truthy, pyStrip, PyValue.isStr, h0, h]
  · intro h
    exact execute_code_full_str codeText t mo o h

/-- C3 amended, witness: the whitespace-only snippet fails validation
without execution at arbitrary bounds. -/
theorem execute_code_validation_spec_witness :
    pyStripStr "   " = "" ∧
    execute_code_full (.str "   ") 0 (-1) (.ok "") =
      .ok ({ success := false, output := "", error := "No code provided", truncated := false },
        false, .validationFailure) :=
  ⟨by decide, (execute_code_validation_spec "   " 0 (-1) (.ok "")).1 (by decide)⟩

/-- C4: importing a module whose top-level name is outside the allow-list
makes `safe_import` raise an `ImportError` whose message (and hence the
envelope's error text, prefixed with "Import error: ") contains
"not allowed", the requested name and its top-level component, and the
sorted allow-list; the gate checks the top-level component only, so dotted
submodules of allowed modules are delegated to the real import. -/
theorem import_gate_spec (name codeText : String) (t mo : Int) (p : String) (r : ExecResult)
    (hM : ALLOWED_IMPORTS.contains (base_module name) = false)
    (hne : pyStripStr codeText ≠ "")
    (hr : execute_code (.str codeText) t mo
      (.raised { ty := .importError, msg := notAllowedMsg name, lineno := 0 } p) = .ok r) :
    safe_import name = .error (notAllowedMsg name) ∧
    r.success = false ∧
    ("not allowed").data <:+: r.error.data ∧
    (base_module name).data <:+: r.error.data ∧
    (joinComma (sortStrings ALLOWED_IMPORTS)).data <:+: r.error.data ∧
    (∀ sub : String, ALLOWED_IMPORTS.contains (base_module sub) = true →
      safe_import sub = .ok ()) := by
  have hgate : safe_import name = .error (notAllowedMsg name) := by
    unfold safe_import
    rw [hM]
    rfl
  rw [execute_code_str _ _ _ _ hne] at hr
  have hr2 : r = finalize false ("Import error: " ++ notAllowedMsg name) p mo := by
    have : attempt_result
        (.raised { ty := .importError, msg := notAllowedMsg name, lineno := 0 } p) =
        .ok (false, "Import error: " ++ notAllowedMsg name, .importRejected) := rfl
    rw [this] at hr
    exact (Except.ok.inj hr).symm
  have herr : r.error = "Import error: " ++ notAllowedMsg name := by
    rw [hr2]; exact (finalize_error_success _ _ _ _).1
  have hsucc : r.success = false := by
    rw [hr2]; exact (finalize_error_success _ _ _ _).2
  have hnameSplit :
      name = base_module name ++ String.mk (name.data.dropWhile (fun c => c != '.')) :=
    strEqOfData (List.takeWhile_append_dropWhile _ _).symm
  refine ⟨hgate, hsucc, ?_, ?_, ?_, ?_⟩
  · rw [herr]
    have hs : ("' is not allowed. Allowed modules: " : String) =
        "' is " ++ "not allowed" ++ ". Allowed modules: " := by decide
    have : "Import error: " ++ notAllowedMsg name =
        ("Import error: " ++ ("Import of '" ++ name ++ "' is ")) ++ "not allowed" ++
          (". Allowed modules: " ++ joinComma (sortStrings ALLOWED_IMPORTS)) := by
      unfold notAllowedMsg
      rw [hs]
      simp only [strAppendAssoc]
    rw [this]
    exact substr_mid _ _ _
  · rw [herr]
    have : "Import error: " ++ notAllowedMsg name =
        ("Import error: " ++ "Import of '") ++ base_module name ++
          (String.mk (name.data.dropWhile (fun c => c != '.')) ++
            ("' is not allowed. Allowed modules: " ++ joinComma (sortStrings ALLOWED_IMPORTS))) := by
      unfold notAllowedMsg
      conv_lhs => rw [hnameSplit]
      simp only [strAppendAssoc]
    rw [this]
    exact substr_mid _ _ _
  · rw [herr]
    have : "Import error: " ++ notAllowedMsg name =
        ("Import error: " ++ ("Import of '" ++ name ++ "' is not allowed. Allowed modules: ")) ++
          joinComma (sortStrings ALLOWED_IMPORTS) := by
      unfold notAllowedMsg
      simp only [strAppendAssoc]
    rw [this]
    exact substr_suffix _ _
  · intro sub hsub
    unfold safe_import
    rw [hsub]
    rfl

/-- C4 witness: `import socket` at the concrete inputs. -/
theorem import_gate_spec_witness :
    ALLOWED_IMPORTS.contains (base_module "socket") = false ∧
    pyStripStr "import socket" ≠ "" ∧
    execute_code (.str "import socket") 5 100
      (.raised { ty := .importError, msg := notAllowedMsg "socket", lineno := 0 } "") =
      .ok { success := false, output := "", error := socketRejectErr, truncated := false } ∧
    (safe_import "socket" = .error (notAllowedMsg "socket") ∧
      ({ success := false, output := "", error := socketRejectErr,
         truncated := false } : ExecResult).success = false ∧
      ("not allowed").data <:+: socketRejectErr.data ∧
      (base_module "socket").data <:+: socketRejectErr.data ∧
      (joinComma (sortStrings ALLOWED_IMPORTS)).data <:+: socketRejectErr.data ∧
      (∀ sub : String, ALLOWED_IMPORTS.contains (base_module sub) = true →
        safe_import sub = .ok ())) :=
  ⟨by decide, by decide, by decide,
    import_gate_spec "socket" "import socket" 5 100 ""
      { success := false, output := "", error := socketRejectErr, truncated := false }
      (by decide) (by decide) (by decide)⟩

/-- C5 counterexample: the truncation marker is not input-independent — it
interpolates `max_output`, so the text following the first `max_output`
kept characters differs between `max_output = 1` and `max_output = 2`. -/
theorem trunc_marker_not_fixed :
    execute_code (.str "print(1)") 5 1 (.ok "abc") =
      .ok { success := true, output := "a" ++ trunc_marker 1, error := "", truncated := true } ∧
    execute_code (.str "print(1)") 5 2 (.ok "abc") =
      .ok { success := true, output := "ab" ++ trunc_marker 2, error := "", truncated := true } ∧
    trunc_marker 1 ≠ trunc_marker 2 := by
  exact ⟨by decide, by decide, by decide⟩

/-- C5 amended: for a positive cap, output longer than `max_output` is
truncated to exactly the first `max_output` characters followed by the
truncation marker determined by `max_output` (it embeds the cap), with
`truncated = true`; output of at most `max_output` characters is returned
unchanged with `truncated = false`. -/
theorem output_truncation_spec (codeText : String) (t mo : Int) (o : ExecOutcome)
    (r : ExecResult) (hne : pyStripStr codeText ≠ "") (hmo : 0 < mo)
    (hr : execute_code (.str codeText) t mo o = .ok r) :
    (mo < ((capturedOf o).length : Int) →
      r.output = strTake (capturedOf o) mo.toNat ++ trunc_marker mo ∧
      (strTake (capturedOf o) mo.toNat).length = mo.toNat ∧
      r.truncated = true) ∧
    (((capturedOf o).length : Int) ≤ mo →
      r.output = capturedOf o ∧ r.truncated = false) := by
  rw [execute_code_str _ _ _ _ hne] at hr
  cases ha : attempt_result o with
  | error e => rw [ha] at hr; exact Except.noConfusion hr
  | ok trip =>
    obtain ⟨succ, err, k⟩ := trip
    rw [ha] at hr
    have hr2 : r = finalize succ err (capturedOf o) mo := (Except.ok.inj hr).symm
    subst hr2
    exact finalize_truncation succ err (capturedOf o) mo hmo

/-- C5 amended, witness: six captured characters against a cap of three. -/
theorem output_truncation_spec_witness :
    pyStripStr "print(1)" ≠ "" ∧ (0 : Int) < 3 ∧
    execute_code (.str "print(1)") 5 3 (.ok "abcdef") =
      .ok { success := true, output := "abc" ++ trunc_marker 3, error := "", truncated := true } ∧
    ({ success := true, output := "abc" ++ trunc_marker 3, error := "",
       truncated := true } : ExecResult).output =
      strTake "abcdef" (3 : Int).toNat ++ trunc_marker 3 :=
  ⟨by decide, by decide, by decide,
    ((output_truncation_spec "print(1)" 5 3 (.ok "abcdef")
      { success := true, output := "abc" ++ trunc_marker 3, error := "", truncated := true }
      (by decide) (by decide) (by decide)).1 (by decide)).1⟩

/-- None of the exception classes reachable from the restricted builtins is
a `TimeoutError` (or a subclass of it). -/
theorem allowed_not_timeout_instance (ty : PyExcTy) (hty : ty ∈ allowedSnippetExcTys) :
    isInstanceOf ty .timeoutError = false := by
  fin_cases hty <;> rfl

/-- Only the `except TimeoutError` clause of the chain can yield the
`timeout` branch tag. -/
theorem classify_timeout_inv (e : PyExcVal) (s : String)
    (h : classify_exc e = some (s, .timeout)) :
    isInstanceOf e.ty .timeoutError = true := by
  unfold classify_exc at h
  split at h
  · assumption
  · split at h
    · exact OutcomeKind.noConfusion (congrArg Prod.snd (Option.some.inj h))
    · split at h
      · exact OutcomeKind.noConfusion (congrArg Prod.snd (Option.some.inj h))
      · split at h
        · exact OutcomeKind.noConfusion (congrArg Prod.snd (Option.some.inj h))
        · exact Option.noConfusion h

/-- An exception whose class is one of the restricted builtins is never
classified into the timeout branch. -/
theorem attempt_result_not_timeout (e : PyExcVal) (p : String)
    (hty : e.ty ∈ allowedSnippetExcTys) :
    ∀ s2 err, attempt_result (.raised e p) ≠ .ok (s2, err, .timeout) := by
  intro s2 err h
  simp only [attempt_result] at h
  cases h2 : classify_exc e with
  | none => rw [h2] at h; exact Except.noConfusion h
  | some pr =>
    obtain ⟨perr, pk⟩ := pr
    rw [h2] at h
    have hk : pk = .timeout := congrArg (fun x => x.2.2) (Except.ok.inj h)
    subst hk
    have hinst := classify_timeout_inv e perr h2
    rw [allowed_not_timeout_instance e.ty hty] at hinst
    exact Bool.noConfusion hinst

/-- C6: the `TimeoutError` raised by the alarm handler is classified into
the distinct `timeout` branch, with the output captured before the
interruption still returned in the envelope; and an error raised by the
snippet's own code — an exception whose class is one of the exception
builtins the restricted namespace provides — is never classified as
`timeout`. -/
theorem timeout_outcome_spec (codeText : String) (t mo : Int) (p : String) (e : PyExcVal)
    (hne : pyStripStr codeText ≠ "")
    (hty : e.ty ∈ allowedSnippetExcTys) :
    execute_code_full (.str codeText) t mo
      (.raised { ty := .timeoutError, msg := timeout_message t, lineno := 0 } p) =
      .ok (finalize false (timeout_message t) p mo, true, .timeout) ∧
    ((p.length : Int) ≤ mo →
      finalize false (timeout_message t) p mo =
        { success := false, output := p, error := timeout_message t, truncated := false }) ∧
    (∀ r b, execute_code_full (.str codeText) t mo (.raised e p) ≠ .ok (r, b, .timeout)) := by
  refine ⟨?_, ?_, ?_⟩
  · rw [execute_code_full_str _ _ _ _ hne]
    rfl
  · intro hle
    unfold finalize
    rw [if_neg (by omega)]
  · intro r b hcontra
    rw [execute_code_full_str _ _ _ _ hne] at hcontra
    cases h2 : attempt_result (.raised e p) with
    | error e2 => rw [h2] at hcontra; exact Except.noConfusion hcontra
    | ok trip =>
      obtain ⟨s2, err2, k2⟩ := trip
      rw [h2] at hcontra
      have hk : k2 = .timeout := congrArg (fun x => x.2.2) (Except.ok.inj hcontra)
      subst hk
      exact attempt_result_not_timeout e p hty s2 err2 h2

/-- C6 witness: a genuine alarm interruption against a `ValueError` raised
by the snippet. -/
theorem timeout_outcome_spec_witness :
    pyStripStr "slow()" ≠ "" ∧
    ({ ty := .valueError, msg := "boom", lineno := 0 } : PyExcVal).ty ∈ allowedSnippetExcTys ∧
    execute_code_full (.str "slow()") 5 100
      (.raised { ty := .timeoutError, msg := timeout_message 5, lineno := 0 } "sofar") =
      .ok (finalize false (timeout_message 5) "sofar" 100, true, .timeout) ∧
    ((("sofar" : String).length : Int) ≤ 100 →
      finalize false (timeout_message 5) "sofar" 100 =
        { success := false, output := "sofar", error := timeout_message 5,
          truncated := false }) :=
  ⟨by decide, by decide,
    (timeout_outcome_spec "slow()" 5 100 "sofar"
      { ty := .valueError, msg := "boom", lineno := 0 } (by decide) (by decide)).1,
    (timeout_outcome_spec "slow()" 5 100 "sofar"
      { ty := .valueError, msg := "boom", lineno := 0 } (by decide) (by decide)).2.1⟩

/-- C7 counterexample: `_validate_code` collects every `FunctionDef` that
`ast.walk` reaches, so for `def f` containing a nested `def g` it reports
`["f", "g"]`, not just the top-level callables `["f"]`. -/
theorem collect_walks_nested_defs :
    validate_code
      { text := "def f():\n    def g():\n        pass",
        parsed := .ok (.cons (.funcDef "f" (.cons (.funcDef "g" (.cons .other .nil)) .nil)) .nil) } =
      { valid := true, functions := ["f", "g"], error := none } ∧
    specTopLevelCallableNames
      (.cons (.funcDef "f" (.cons (.funcDef "g" (.cons .other .nil)) .nil)) .nil) = ["f"] ∧
    (["f", "g"] : List String) ≠ ["f"] := by
  exact ⟨by decide, by decide, by decide⟩

/-- C7 amended: for nonempty, size-respecting, parseable code,
`_validate_code` extracts (by pure static analysis) the names of all
function definitions found by walking the whole tree breadth-first —
nested definitions included, classes and lambdas excluded — and `save`
fails validation when that list is empty. -/
theorem validate_code_spec (text : String) (tree : StmtBody) (st : Store) (now : Nat)
    (name : String) (desc : String) (params : List (String × String)) (rets ex ver : String)
    (hne : pyStripStr text ≠ "") (hsize : text.length ≤ MAX_SKILL_SIZE)
    (hname : validate_skill_name name = .ok ())
    (hmax : ¬ (MAX_SKILLS ≤ (list_skills st).length ∧ (list_skills st).contains name = false)) :
    validate_code { text := text, parsed := .ok tree } =
      { valid := true, functions := collectFunctions tree, error := none } ∧
    (collectFunctions tree = [] →
      save_skill st now name { text := text, parsed := .ok tree } desc params rets ex ver =
        .error "Code must define at least one function") := by
  have hv : validate_code { text := text, parsed := .ok tree } =
      { valid := true, functions := collectFunctions tree, error := none } := by
    unfold validate_code
    rw [if_neg hne, if_neg (by show ¬ MAX_SKILL_SIZE < text.length; omega)]
  refine ⟨hv, fun hnil => ?_⟩
  unfold save_skill
  simp only [hname]
  rw [if_neg hmax, hv]
  simp [hnil]

/-- C7 amended, witness: code with an assignment but no function
definition is rejected by `save_skill`. -/
theorem validate_code_spec_witness :
    pyStripStr "x = 1" ≠ "" ∧ ("x = 1" : String).length ≤ MAX_SKILL_SIZE ∧
    validate_skill_name "nofun" = .ok () ∧
    ¬ (MAX_SKILLS ≤ (list_skills []).length ∧ (list_skills []).contains "nofun" = false) ∧
    validate_code { text := "x = 1", parsed := .ok (.cons .other .nil) } =
      { valid := true, functions := collectFunctions (.cons .other .nil), error := none } ∧
    save_skill [] 7 "nofun" { text := "x = 1", parsed := .ok (.cons .other .nil) }
      "d" [] "r" "" "1.0.0" = .error "Code must define at least one function" :=
  ⟨by decide, by decide, by decide, by decide,
    (validate_code_spec "x = 1" (.cons .other .nil) [] 7 "nofun" "d" [] "r" "" "1.0.0"
      (by decide) (by decide) (by decide) (by decide)).1,
    (validate_code_spec "x = 1" (.cons .other .nil) [] 7 "nofun" "d" [] "r" "" "1.0.0"
      (by decide) (by decide) (by decide) (by decide)).2 (by decide)⟩

/-- C8: on a skill whose declared callables are `f` then `g` (both bound by
executing the code), `run_skill` with no `function` argument invokes `f`
(the first declared callable), with `function = "g"` invokes `g`, and with
the undeclared `function = "h"` fails before executing any code (flag
`false`) with an error naming the available callables. -/
theorem run_skill_selection_spec (st : Store) (name : String) (sk : SkillRecord)
    (hsk : storeLookup st name = some sk)
    (hfuns : sk.functions = ["f", "g"])
    (hbf : "f" ∈ skillBindings sk)
    (hbg : "g" ∈ skillBindings sk) :
    run_skill st name none = (.ok "f", true) ∧
    run_skill st name (some "g") = (.ok "g", true) ∧
    run_skill st name (some "h") =
      (.error ("Function '" ++ "h" ++ "' not found in skill '" ++ name ++
        "'. Available: " ++ joinComma sk.functions), false) := by
  unfold run_skill
  simp only [hsk]
  refine ⟨?_, ?_, ?_⟩
  · simp [hfuns, finishRun, hbf]
  · simp [hfuns, finishRun, hbg]
  · simp [hfuns, finishRun]

/-- C8 witness: the `fg_skill` fixture. -/
theorem run_skill_selection_spec_witness :
    storeLookup fgStore "fg_skill" = some fgRecord ∧
    fgRecord.functions = ["f", "g"] ∧
    "f" ∈ skillBindings fgRecord ∧
    "g" ∈ skillBindings fgRecord ∧
    run_skill fgStore "fg_skill" none = (.ok "f", true) ∧
    run_skill fgStore "fg_skill" (some "g") = (.ok "g", true) ∧
    run_skill fgStore "fg_skill" (some "h") =
      (.error ("Function '" ++ "h" ++ "' not found in skill '" ++ "fg_skill" ++
        "'. Available: " ++ joinComma fgRecord.functions), false) :=
  ⟨by decide, by decide, by decide, by decide,
    (run_skill_selection_spec fgStore "fg_skill" fgRecord
      (by decide) (by decide) (by decide) (by decide)).1,
    (run_skill_selection_spec fgStore "fg_skill" fgRecord
      (by decide) (by decide) (by decide) (by decide)).2.1,
    (run_skill_selection_spec fgStore "fg_skill" fgRecord
      (by decide) (by decide) (by decide) (by decide)).2.2⟩

/-- C9 counterexample: a skill saved with example "MYEXAMPLE" and then
updated with only a new description keeps its code, parameters and returns
and bumps the version to 1.0.1, but the example it persists is reset to the
generated default, not the prior "MYEXAMPLE" — so the unsupplied example
field does not retain its prior value. -/
theorem update_drops_example :
    save_skill [] 1 "sk" oneFunCode "desc" [] "ret" "MYEXAMPLE" "1.0.0" =
      .ok (updStore1, updRes1) ∧
    update_skill updStore1 2 "sk" none (some "newdesc") none none none =
      .ok (updStore2, updRes1) ∧
    (storeLookup updStore1 "sk").map (fun r => r.skillMd.exampleText) = some "MYEXAMPLE" ∧
    (storeLookup updStore2 "sk").map (fun r => r.skillMd.exampleText) =
      some (defaultExample "sk") ∧
    defaultExample "sk" ≠ "MYEXAMPLE" ∧
    (storeLookup updStore2 "sk").map (fun r => r.version) = some "1.0.1" ∧
    (storeLookup updStore2 "sk").map (fun r => r.returns) = some "ret" := by
  exact ⟨by decide, by decide, by decide, by decide, by decide, by decide, by decide⟩

/-- C9 amended: a successful `update` leaves every unsupplied field except
the example at its prior value (code, description, parameters, returns),
stamps `created`/`updated` with the update instant, sets the version to the
trailing-component bump of the prior version, and regenerates the persisted
example from the supplied value or the empty string — the prior example
text is never consulted. -/
theorem update_merge_spec (st : Store) (now : Nat) (name : String)
    (code? : Option PyCode) (desc? : Option String)
    (params? : Option (List (String × String))) (rets? ex? : Option String)
    (sk : SkillRecord) (v2 : String) (st2 : Store) (res : SaveResult)
    (hsk : storeLookup st name = some sk)
    (hv : bump_version sk.version = .ok v2)
    (hupd : update_skill st now name code? desc? params? rets? ex? = .ok (st2, res)) :
    (storeLookup st2 name).map SkillRecord.code = some (code?.getD sk.code) ∧
    (storeLookup st2 name).map SkillRecord.description = some (desc?.getD sk.description) ∧
    (storeLookup st2 name).map SkillRecord.parameters = some (params?.getD sk.parameters) ∧
    (storeLookup st2 name).map SkillRecord.returns = some (rets?.getD sk.returns) ∧
    (storeLookup st2 name).map SkillRecord.version = some v2 ∧
    (storeLookup st2 name).map SkillRecord.created = some now ∧
    (storeLookup st2 name).map SkillRecord.updated = some now ∧
    (storeLookup st2 name).map (fun r => r.skillMd.exampleText) =
      some (chooseExample (ex?.getD "") name) := by
  unfold update_skill at hupd
  simp only [hsk] at hupd
  rw [hv] at hupd
  have h2 := save_skill_ok_record _ _ _ _ _ _ _ _ _ _ _ hupd
  subst h2
  rw [lookup_storeSave]
  exact ⟨rfl, rfl, rfl, rfl, rfl, rfl, rfl, rfl⟩

/-- C9 amended, witness: the update fixture, whose persisted example is the
regenerated default. -/
theorem update_merge_spec_witness :
    storeLookup updStore1 "sk" =
      some (builtSkillRecord 1 "sk" oneFunCode "desc" [] "ret" "MYEXAMPLE" "1.0.0") ∧
    bump_version "1.0.0" = .ok "1.0.1" ∧
    update_skill updStore1 2 "sk" none (some "newdesc") none none none =
      .ok (updStore2, updRes1) ∧
    (storeLookup updStore2 "sk").map (fun r => r.skillMd.exampleText) =
      some (chooseExample "" "sk") ∧
    (storeLookup updStore2 "sk").map SkillRecord.returns = some "ret" :=
  ⟨by decide, by decide, by decide,
    (update_merge_spec updStore1 2 "sk" none (some "newdesc") none none none
      (builtSkillRecord 1 "sk" oneFunCode "desc" [] "ret" "MYEXAMPLE" "1.0.0") "1.0.1"
      updStore2 updRes1 (by decide) (by decide) (by decide)).2.2.2.2.2.2.2,
    (update_merge_spec updStore1 2 "sk" none (some "newdesc") none none none
      (builtSkillRecord 1 "sk" oneFunCode "desc" [] "ret" "MYEXAMPLE" "1.0.0") "1.0.1"
      updStore2 updRes1 (by decide) (by decide) (by decide)).2.2.2.1⟩

/-- C10: saving over an existing skill name — directly, or through the
re-save `update` performs — stamps the persisted `created` field with the
time of the overwrite, so when the overwrite happens at a different instant
the original creation time is not preserved. -/
theorem save_overwrite_created_spec (st : Store) (now : Nat) (name : String)
    (sk0 : SkillRecord) (code : PyCode) (desc : String)
    (params : List (String × String)) (rets ex ver : String)
    (code? : Option PyCode) (desc? : Option String)
    (params? : Option (List (String × String))) (rets? ex? : Option String)
    (hexist : storeLookup st name = some sk0) :
    (∀ st2 res, save_skill st now name code desc params rets ex ver = .ok (st2, res) →
      (storeLookup st2 name).map SkillRecord.created = some now ∧
      (sk0.created ≠ now → (storeLookup st2 name).map SkillRecord.created ≠ some sk0.created)) ∧
    (∀ st2 res, update_skill st now name code? desc? params? rets? ex? = .ok (st2, res) →
      (storeLookup st2 name).map SkillRecord.created = some now ∧
      (sk0.created ≠ now →
        (storeLookup st2 name).map SkillRecord.created ≠ some sk0.created)) := by
  constructor
  · intro st2 res h
    have h2 := save_skill_ok_record _ _ _ _ _ _ _ _ _ _ _ h
    subst h2
    rw [lookup_storeSave]
    exact ⟨rfl, fun hne hcontra => hne (Option.some.inj hcontra).symm⟩
  · intro st2 res h
    unfold update_skill at h
    simp only [hexist] at h
    cases hb : bump_version sk0.version with
    | error e => rw [hb] at h; exact Except.noConfusion h
    | ok v2 =>
      rw [hb] at h
      have h2 := save_skill_ok_record _ _ _ _ _ _ _ _ _ _ _ h
      subst h2
      rw [lookup_storeSave]
      exact ⟨rfl, fun hne hcontra => hne (Option.some.inj hcontra).symm⟩

/-- C10 witness: overwriting the fixture skill (created at instant 1) at
instant 2 leaves `created = 2`. -/
theorem save_overwrite_created_spec_witness :
    storeLookup updStore1 "sk" =
      some (builtSkillRecord 1 "sk" oneFunCode "desc" [] "ret" "MYEXAMPLE" "1.0.0") ∧
    save_skill updStore1 2 "sk" oneFunCode "d2" [] "r2" "" "9.9.9" =
      .ok (storeSave updStore1 "sk" (builtSkillRecord 2 "sk" oneFunCode "d2" [] "r2" "" "9.9.9"),
        builtSaveResult "sk" ["f"]) ∧
    (storeLookup (storeSave updStore1 "sk"
      (builtSkillRecord 2 "sk" oneFunCode "d2" [] "r2" "" "9.9.9")) "sk").map
      SkillRecord.created = some 2 :=
  ⟨by decide, by decide,
    ((save_overwrite_created_spec updStore1 2 "sk"
      (builtSkillRecord 1 "sk" oneFunCode "desc" [] "ret" "MYEXAMPLE" "1.0.0")
      oneFunCode "d2" [] "r2" "" "9.9.9" none none none none none (by decide)).1
      (storeSave updStore1 "sk" (builtSkillRecord 2 "sk" oneFunCode "d2" [] "r2" "" "9.9.9"))
      (builtSaveResult "sk" ["f"]) (by decide)).1⟩

end SMCG
